import Mathlib

/-!
Verification of the TypeNarrowingAgent pipeline (`src/agent/utils.py`).

This development shallowly embeds the pipeline of `src/agent/utils.py`:
the Source Acquirer (`read_code_files`, `read_local_file`), the Response
Recoverer (`extract_json_from_response` plus the JSON decode), the Report
Requester retry loop (`analyze_code_with_groq`), and the Aggregator
(`analyze_repository`, `analyze_local_file`).

Python values decoded from JSON are modelled by `PyVal`; Python exceptions
that the aggregation loop can raise are modelled by `PyErr`.  External
boundaries (the Groq chat-completion call, the git clone, the file system)
are modelled as explicit parameters, so that the control flow of the
repository's own code is embedded exactly while the environment stays
abstract.
-/

/-- A Python value as produced by `json.loads`: `None`, booleans, integers,
non-integral numeric literals (kept as their source text), strings, lists
and dicts (association lists in insertion order, duplicate keys resolved by
the JSON parser exactly as Python does, last occurrence wins). -/
inductive PyVal where
  | pyNone : PyVal
  | bool : Bool → PyVal
  | int : Int → PyVal
  | numLit : String → PyVal
  | str : String → PyVal
  | list : List PyVal → PyVal
  | dict : List (String × PyVal) → PyVal
deriving Repr

/-- Exceptions the embedded fragments can raise: `ValueError msg` (raised by
the Acquirer stage and by `clone_repository`) and `TypeError` / `KeyError`
(raised by the aggregation loop's dict probing on ill-shaped values). -/
inductive PyErr where
  | valueError : String → PyErr
  | typeError : PyErr
  | keyError : PyErr
deriving Repr, DecidableEq

/-- The whitespace characters stripped by Python's `str.strip()` (ASCII
fragment: space, tab, newline, carriage return, vertical tab, form feed). -/
def isPySpace (c : Char) : Bool :=
  c == ' ' || c == '\t' || c == '\n' || c == '\r' ||
    c == Char.ofNat 11 || c == Char.ofNat 12

/-- Python's `str.strip()` (ASCII-whitespace fragment): drop leading and
trailing whitespace. -/
def pyStrip (s : String) : String :=
  String.mk (((s.toList.dropWhile isPySpace).reverse.dropWhile isPySpace).reverse)

/-- The span matched by `re.search(r'(\x7b.*\x7d)', raw, re.DOTALL)` in
`extract_json_from_response` (utils.py line 91): the leftmost match of a
greedy `.*` runs from the first brace-open that is followed by a later
brace-close to the last brace-close of the whole text; when no such pair
exists the result is empty.  Implemented as: take the suffix starting at the
first brace-open, then cut it after its last brace-close. -/
def extractSpan (s : List Char) : List Char :=
  let t := s.dropWhile (fun c => c != '{')
  (t.reverse.dropWhile (fun c => c != '}')).reverse

/-- `extract_json_from_response` (utils.py lines 88-94): extract the JSON
portion from a mixed text-and-JSON response; returns `""` when the regex
finds no match. -/
def extract_json_from_response (raw_response : String) : String :=
  String.mk (extractSpan raw_response.toList)

/-- JSON whitespace accepted between tokens by the decoder. -/
def isJsonWs (c : Char) : Bool :=
  c == ' ' || c == '\t' || c == '\n' || c == '\r'

/-- Skip JSON inter-token whitespace. -/
def skipWs (s : List Char) : List Char := s.dropWhile isJsonWs

/-- Value of a hexadecimal digit, for `\uXXXX` string escapes. -/
def hexVal (c : Char) : Option Nat :=
  if c.isDigit then some (c.toNat - 48)
  else if 'a' ≤ c && c ≤ 'f' then some (c.toNat - 87)
  else if 'A' ≤ c && c ≤ 'F' then some (c.toNat - 55)
  else none

/-- Prepend a decoded character to the pending string-body parse. -/
def pushChar (c : Char) (r : Option (List Char × List Char)) :
    Option (List Char × List Char) :=
  r.map (fun p => (c :: p.1, p.2))

/-- Modelled from the Python standard library: the body of a JSON string
literal after the opening quote, returning the decoded characters and the
rest of the input after the closing quote.  Handles the JSON escapes,
including `\uXXXX`; an unterminated string or invalid escape fails. -/
def parseStringBody : List Char → Option (List Char × List Char)
  | [] => none
  | '"' :: r => some ([], r)
  | '\\' :: '"' :: r => pushChar '"' (parseStringBody r)
  | '\\' :: '\\' :: r => pushChar '\\' (parseStringBody r)
  | '\\' :: '/' :: r => pushChar '/' (parseStringBody r)
  | '\\' :: 'b' :: r => pushChar (Char.ofNat 8) (parseStringBody r)
  | '\\' :: 'f' :: r => pushChar (Char.ofNat 12) (parseStringBody r)
  | '\\' :: 'n' :: r => pushChar '\n' (parseStringBody r)
  | '\\' :: 'r' :: r => pushChar '\r' (parseStringBody r)
  | '\\' :: 't' :: r => pushChar '\t' (parseStringBody r)
  | '\\' :: 'u' :: h1 :: h2 :: h3 :: h4 :: r =>
    match hexVal h1, hexVal h2, hexVal h3, hexVal h4 with
    | some a, some b, some c, some d =>
      pushChar (Char.ofNat (((a * 16 + b) * 16 + c) * 16 + d)) (parseStringBody r)
    | _, _, _, _ => none
  | '\\' :: _ => none
  | c :: r => pushChar c (parseStringBody r)

/-- Integer value of a digit run. -/
def digitsVal (ds : List Char) : Int :=
  ds.foldl (fun a c => a * 10 + (Int.ofNat (c.toNat - 48))) 0

/-- Modelled from the Python standard library: a JSON number.  An integral
literal becomes `PyVal.int`; a literal with a fraction or exponent is kept
as `PyVal.numLit` carrying its source text (its numeric value is never
inspected by this repository's code).  Leading zeros are rejected as in
Python's `json.loads`. -/
def parseNumber (s : List Char) : Option (PyVal × List Char) :=
  let neg : Bool := match s with | '-' :: _ => true | _ => false
  let s1 := match s with | '-' :: r => r | _ => s
  let ds := s1.takeWhile Char.isDigit
  let rest := s1.dropWhile Char.isDigit
  if ds.isEmpty then none
  else if ds.length > 1 && ds.head? == some '0' then none
  else
    match rest with
    | '.' :: r2 =>
      let fds := r2.takeWhile Char.isDigit
      let rest2 := r2.dropWhile Char.isDigit
      if fds.isEmpty then none
      else
        match rest2 with
        | 'e' :: r3 => parseExpTail neg ds fds r3
        | 'E' :: r3 => parseExpTail neg ds fds r3
        | _ =>
          some (.numLit (String.mk ((if neg then ['-'] else []) ++ ds ++ '.' :: fds)), rest2)
    | 'e' :: r3 => parseExpTail neg ds [] r3
    | 'E' :: r3 => parseExpTail neg ds [] r3
    | _ => some (.int (if neg then -(digitsVal ds) else digitsVal ds), rest)
where
  /-- The exponent tail after `e`/`E`. -/
  parseExpTail (neg : Bool) (ds fds : List Char) (r : List Char) :
      Option (PyVal × List Char) :=
    let esign : List Char := match r with | '+' :: _ => ['+'] | '-' :: _ => ['-'] | _ => []
    let r1 := match r with | '+' :: t => t | '-' :: t => t | _ => r
    let eds := r1.takeWhile Char.isDigit
    let rest := r1.dropWhile Char.isDigit
    if eds.isEmpty then none
    else
      some (.numLit (String.mk ((if neg then ['-'] else []) ++ ds ++
        (if fds.isEmpty then [] else '.' :: fds) ++ 'e' :: esign ++ eds)), rest)

/-- Python-dict insertion used while decoding a JSON object: a duplicate key
overwrites the earlier value in place (insertion order preserved), exactly
as `dict` assignment does in CPython's `json.loads`. -/
def dictInsert (kvs : List (String × PyVal)) (k : String) (v : PyVal) :
    List (String × PyVal) :=
  if kvs.any (fun kv => kv.1 == k) then
    kvs.map (fun kv => if kv.1 == k then (k, v) else kv)
  else kvs ++ [(k, v)]

mutual

/-- Modelled from the Python standard library (`json.loads` grammar): one
JSON value, fuel-indexed for termination; the fuel supplied by `jsonLoads`
is always sufficient for inputs the grammar accepts. -/
def parseVal : Nat → List Char → Option (PyVal × List Char)
  | 0, _ => none
  | fuel + 1, s =>
    match skipWs s with
    | 'n' :: 'u' :: 'l' :: 'l' :: r => some (.pyNone, r)
    | 't' :: 'r' :: 'u' :: 'e' :: r => some (.bool true, r)
    | 'f' :: 'a' :: 'l' :: 's' :: 'e' :: r => some (.bool false, r)
    | '"' :: r =>
      match parseStringBody r with
      | some (cs, rest) => some (.str (String.mk cs), rest)
      | none => none
    | '{' :: r =>
      match parseObjItems fuel (skipWs r) [] true with
      | some (kvs, rest) => some (.dict kvs, rest)
      | none => none
    | '[' :: r =>
      match parseArrItems fuel (skipWs r) [] true with
      | some (xs, rest) => some (.list xs, rest)
      | none => none
    | c :: r =>
      if c == '-' || c.isDigit then parseNumber (c :: r) else none
    | [] => none

/-- Modelled from the Python standard library: the members of a JSON object
after the opening brace (whitespace already skipped); `first` is true before
the first member so that an immediate closing brace yields the empty
object. -/
def parseObjItems : Nat → List Char → List (String × PyVal) → Bool →
    Option (List (String × PyVal) × List Char)
  | 0, _, _, _ => none
  | _ + 1, '}' :: r, acc, true => some (acc, r)
  | fuel + 1, s, acc, _ =>
    match s with
    | '"' :: r =>
      match parseStringBody r with
      | some (kcs, rest) =>
        match skipWs rest with
        | ':' :: r2 =>
          match parseVal fuel r2 with
          | some (v, rest2) =>
            let acc' := dictInsert acc (String.mk kcs) v
            match skipWs rest2 with
            | ',' :: r3 => parseObjItems fuel (skipWs r3) acc' false
            | '}' :: r3 => some (acc', r3)
            | _ => none
          | none => none
        | _ => none
      | none => none
    | _ => none

/-- Modelled from the Python standard library: the elements of a JSON array
after the opening bracket (whitespace already skipped). -/
def parseArrItems : Nat → List Char → List PyVal → Bool →
    Option (List PyVal × List Char)
  | 0, _, _, _ => none
  | _ + 1, ']' :: r, acc, true => some (acc, r)
  | fuel + 1, s, acc, _ =>
    match parseVal fuel s with
    | some (v, rest) =>
      match skipWs rest with
      | ',' :: r2 => parseArrItems fuel (skipWs r2) (acc ++ [v]) false
      | ']' :: r2 => some (acc ++ [v], r2)
      | _ => none
    | none => none

end

/-- Modelled from the Python standard library: `json.loads` — decode a
complete JSON document; trailing whitespace is allowed, any other trailing
content is a decode error. -/
def jsonLoads (s : String) : Option PyVal :=
  let cs := s.toList
  match parseVal (2 * cs.length + 4) cs with
  | some (v, rest) => if (skipWs rest).isEmpty then some v else none
  | none => none

example : jsonLoads "\x7b\"vulnerabilities\": []\x7d" =
    some (.dict [("vulnerabilities", .list [])]) := by rfl
example : jsonLoads "\x7b\"vulnerabilities\": 5\x7d" =
    some (.dict [("vulnerabilities", .int 5)]) := by rfl
example : jsonLoads "\x7b\x7d" = some (.dict []) := by rfl
example : jsonLoads "\x7b\"a\": [1, true, null, \"x\", -2]\x7d" =
    some (.dict [("a", .list [.int 1, .bool true, .pyNone, .str "x", .int (-2)])]) := by rfl
example : jsonLoads "\x7b\"a\": 1.5\x7d" =
    some (.dict [("a", .numLit "1.5")]) := by rfl
example : jsonLoads "\x7b\"a\": 1" = none := by rfl
example : jsonLoads "\x7b\"a\": 01\x7d" = none := by rfl
example : jsonLoads "\x7b\"a\": \"b\\nc\"\x7d" =
    some (.dict [("a", .str "b\nc")]) := by rfl
example : jsonLoads "\x7b\"a\": 1, \"a\": 2\x7d" =
    some (.dict [("a", .int 2)]) := by rfl
example : extract_json_from_response "Here is the result:\n\x7b\"vulnerabilities\": []\x7d\nThanks" =
    "\x7b\"vulnerabilities\": []\x7d" := by rfl
example : extract_json_from_response "\x7d prose \x7b" = "" := by rfl
example : extract_json_from_response "no braces at all" = "" := by rfl
example : extract_json_from_response "a\x7db\x7bc\x7dd" = "\x7bc\x7d" := by rfl
example : pyStrip "  \n " = "" := by rfl
example : pyStrip " a b " = "a b" := by rfl

/-- The error result built when the Groq response is blank (utils.py
line 116). -/
def emptyResponseErr (file_path : String) : PyVal :=
  .dict [("vulnerabilities", .list []),
         ("error", .str ("Empty response from Groq API for " ++ file_path))]

/-- The error result built when no JSON span is found (utils.py line 123). -/
def noJsonErr (file_path : String) : PyVal :=
  .dict [("vulnerabilities", .list []),
         ("error", .str ("No valid JSON found in response for " ++ file_path))]

/-- The error result built when the extracted span fails to decode
(utils.py line 132).  The Python message appends the decoder's own
diagnostic text, which this model leaves abstract. -/
def invalidJsonErr : PyVal :=
  .dict [("vulnerabilities", .list []),
         ("error", .str "Invalid JSON response from Groq API")]

/-- The error result built when the final retry attempt raised (utils.py
line 140); `msg` is the text of the raised exception. -/
def failedAnalyzeErr (file_path msg : String) : PyVal :=
  .dict [("vulnerabilities", .list []),
         ("error", .str ("Failed to analyze " ++ file_path ++ ": " ++ msg))]

/-- The fallback result after the retry loop (utils.py line 141);
unreachable in Python because every loop iteration returns. -/
def afterLoopErr (file_path : String) : PyVal :=
  .dict [("vulnerabilities", .list []),
         ("error", .str ("Failed to analyze " ++ file_path ++ " after 3 attempts"))]

/-- The body of `analyze_code_with_groq` after a structurally successful
call (utils.py lines 113-132), parameterised over the span extractor and
the JSON decoder so that the short-circuit on a blank response is provably
independent of the Recoverer.  The pipeline instantiates it with
`extract_json_from_response` and `jsonLoads` (see `processResponse`). -/
def processResponseWith (extractor : String → String) (loads : String → Option PyVal)
    (file_path raw_content : String) : PyVal :=
  if pyStrip raw_content == "" then emptyResponseErr file_path
  else
    let json_content := extractor raw_content
    if json_content == "" then noJsonErr file_path
    else
      match loads json_content with
      | some parsed_json => parsed_json
      | none => invalidJsonErr

/-- The response-processing body instantiated with the repository's own
extractor and the JSON decoder, exactly as utils.py lines 113-132 run. -/
def processResponse (file_path raw_content : String) : PyVal :=
  processResponseWith extract_json_from_response jsonLoads file_path raw_content

/-- `max_retries` (utils.py line 98). -/
def max_retries : Nat := 3

/-- `retry_delay` in seconds (utils.py line 99). -/
def retry_delay : Nat := 5

/-- One Groq call boundary for a fixed file: attempt number ↦ either the
raised exception's text or the response's `choices[0].message.content`. -/
abbrev GroqOracle := Nat → Except String String

/-- The `for attempt in range(max_retries)` loop of `analyze_code_with_groq`
(utils.py lines 100-141), instrumented: returns the result dict, the number
of boundary calls issued, and the list of `time.sleep` delays taken.
`remaining = max_retries - attempt` counts the iterations the `range` has
left; `remaining = 0` is the loop's fall-through return (line 141), and the
branch on `remaining' = 0` is Python's `attempt < max_retries - 1` test
(line 134). -/
def groqAttemptLoop (oracle : GroqOracle) (file_path : String) :
    Nat → Nat → PyVal × Nat × List Nat
  | _, 0 => (afterLoopErr file_path, 0, [])
  | attempt, remaining + 1 =>
    match oracle attempt with
    | .ok raw_content => (processResponse file_path raw_content, 1, [])
    | .error e =>
      if remaining == 0 then (failedAnalyzeErr file_path e, 1, [])
      else
        let (r, c, d) := groqAttemptLoop oracle file_path (attempt + 1) remaining
        (r, c + 1, retry_delay :: d)

/-- `analyze_code_with_groq` (utils.py lines 96-141): the retry loop run
from attempt 0 with `max_retries` iterations available, returning the
result dict together with the call count and the sleeps taken.  The
`code`/prompt payload of each call is folded into the oracle. -/
def analyze_code_with_groq (oracle : GroqOracle) (file_path : String) :
    PyVal × Nat × List Nat :=
  groqAttemptLoop oracle file_path 0 max_retries

example : analyze_code_with_groq (fun _ => .error "boom") "a.py" =
    (failedAnalyzeErr "a.py" "boom", 3, [5, 5]) := by rfl
example : analyze_code_with_groq (fun _ => .ok "\x7b\"vulnerabilities\": []\x7d") "a.py" =
    (.dict [("vulnerabilities", .list [])], 1, []) := by rfl
example : analyze_code_with_groq
    (fun n => if n == 0 then .error "x" else .ok "   ") "a.py" =
    (emptyResponseErr "a.py", 2, [5]) := by rfl

/-- `max_file_size` (utils.py lines 34 and 76): the 1,000,000-byte limit. -/
def max_file_size : Nat := 1000000

/-- Python's `str.endswith((".py", ".ts"))` on a path, as used by the
eligibility filter (utils.py lines 39, 54, 74). -/
def endsPyTs (p : String) : Bool :=
  ".py".toList.isSuffixOf p.toList || ".ts".toList.isSuffixOf p.toList

/-- `os.path.join` for the relative components this pipeline produces. -/
def pathJoin (a b : String) : String := a ++ "/" ++ b

/-- The file-system boundary, as the embedded code observes it:
existence, byte size, UTF-8 decoded content (`none` models a
`UnicodeDecodeError` while reading), and the `os.walk` enumeration of
(directory, file-name) entries in walk order. -/
structure FileSys where
  exists_ : String → Bool
  size : String → Nat
  content : String → Option String
  walk : List (String × String)

/-- `read_code_files` (utils.py lines 31-68): with a `specific_file`, the
single-file checks in source order (existence, extension, size, decode,
non-blank); otherwise the recursive walk keeping every eligible file and
skipping (with a diagnostic print, not modelled) every ineligible one.
Errors are the `ValueError` messages raised by the Python code. -/
def read_code_files (fs : FileSys) (repo_path : String)
    (specific_file : Option String) : Except String (List (String × String)) :=
  match specific_file with
  | some sf =>
    let file_path := pathJoin repo_path sf
    if fs.exists_ file_path == false then
      .error ("File " ++ sf ++ " not found in repository")
    else if endsPyTs file_path == false then
      .error ("File " ++ sf ++ " must be a .py or .ts file")
    else if fs.size file_path > max_file_size then
      .error ("File " ++ file_path ++ " exceeds size limit of 1000000 bytes")
    else
      match fs.content file_path with
      | none => .error ("Unable to decode " ++ file_path ++ " as UTF-8")
      | some content =>
        if pyStrip content == "" then .error ("File " ++ file_path ++ " is empty")
        else .ok [(file_path, content)]
  | none =>
    .ok (fs.walk.foldl (fun acc rn =>
      if endsPyTs rn.2 then
        let file_path := pathJoin rn.1 rn.2
        if fs.size file_path > max_file_size then acc
        else
          match fs.content file_path with
          | none => acc
          | some content =>
            if pyStrip content == "" then acc else acc ++ [(file_path, content)]
      else acc) [])

/-- `read_local_file` (utils.py lines 70-86): the same five checks in
source order, on the path as given, returning a single-entry mapping. -/
def read_local_file (fs : FileSys) (file_path : String) :
    Except String (List (String × String)) :=
  if fs.exists_ file_path == false then
    .error ("Local file " ++ file_path ++ " not found")
  else if endsPyTs file_path == false then
    .error ("File " ++ file_path ++ " must be a .py or .ts file")
  else if fs.size file_path > max_file_size then
    .error ("File " ++ file_path ++ " exceeds size limit of 1000000 bytes")
  else
    match fs.content file_path with
    | none => .error ("Unable to decode " ++ file_path ++ " as UTF-8")
    | some content =>
      if pyStrip content == "" then .error ("File " ++ file_path ++ " is empty")
      else .ok [(file_path, content)]

/-- Substring test on character lists, for Python's `key in some_string`. -/
def listHasSub (needle : List Char) : List Char → Bool
  | [] => needle.isEmpty
  | c :: rest => needle.isPrefixOf (c :: rest) || listHasSub needle rest

/-- Python's `key in value` for the values `json.loads` can produce: key
lookup on a dict, element membership on a list, substring test on a string;
`TypeError` on `None`, booleans and numbers (not iterable / not a
container). -/
def pyContains (key : String) : PyVal → Except PyErr Bool
  | .dict kvs => .ok (kvs.any (fun kv => kv.1 == key))
  | .list xs => .ok (xs.any (fun x => match x with | .str s => s == key | _ => false))
  | .str s => .ok (listHasSub key.toList s.toList)
  | _ => .error .typeError

/-- Python's `value[key]` with a string key: dict lookup (`KeyError` when
absent), `TypeError` on anything else (list and string indices must be
integers; other values are not subscriptable). -/
def pyIndex (v : PyVal) (key : String) : Except PyErr PyVal :=
  match v with
  | .dict kvs =>
    match kvs.find? (fun kv => kv.1 == key) with
    | some kv => .ok kv.2
    | none => .error .keyError
  | _ => .error .typeError

/-- Python's iteration of a value, as `list.extend` consumes it: a list
yields its elements, a string its one-character strings, a dict its keys;
`None`, booleans and numbers raise `TypeError`. -/
def pyIter : PyVal → Except PyErr (List PyVal)
  | .list xs => .ok xs
  | .str s => .ok (s.toList.map (fun c => .str (String.mk [c])))
  | .dict kvs => .ok (kvs.map (fun kv => .str kv.1))
  | _ => .error .typeError

/-- The first half of one aggregation-loop iteration (utils.py lines
158-159 and 172-173): probe the per-file `analysis` for a `vulnerabilities`
key and extend the accumulator with its elements.  Any `TypeError` the
Python membership, indexing or iteration raises is propagated. -/
def vulnProbe (analysis : PyVal) (acc : List PyVal) :
    Except PyErr (List PyVal) :=
  match pyContains "vulnerabilities" analysis with
  | .error e => .error e
  | .ok true =>
    match pyIndex analysis "vulnerabilities" with
    | .error e => .error e
    | .ok v =>
      match pyIter v with
      | .error e => .error e
      | .ok items => .ok (acc ++ items)
  | .ok false => .ok acc

/-- The second half of one aggregation-loop iteration (utils.py lines
160-161 and 174-175): probe for an `error` key and append one
`\x7bfile, error\x7d` record. -/
def errProbe (display : String) (analysis : PyVal) (acc1 : List PyVal) :
    Except PyErr (List PyVal) :=
  match pyContains "error" analysis with
  | .error e => .error e
  | .ok true =>
    match pyIndex analysis "error" with
    | .error e => .error e
    | .ok e => .ok (acc1 ++ [PyVal.dict [("file", .str display), ("error", e)]])
  | .ok false => .ok acc1

/-- One iteration of the aggregation loop: both probes in sequence. -/
def aggregateStep (display : String) (analysis : PyVal) (acc : List PyVal) :
    Except PyErr (List PyVal) :=
  match vulnProbe analysis acc with
  | .error e => .error e
  | .ok acc1 => errProbe display analysis acc1

/-- The per-file boundary: `(code, display path, attempt)` ↦ raised
exception text or returned response text. -/
abbrev PipelineOracle := String → String → GroqOracle

/-- The `for file_path, code in code_files.items()` loop shared by
`analyze_repository` (utils.py lines 153-161) and `analyze_local_file`
(lines 168-175): analyze each file in mapping order with
`analyze_code_with_groq` and fold its result into the accumulator,
counting boundary calls. -/
def aggregateRun (oracle : PipelineOracle) (displayOf : String → String) :
    List (String × String) → List PyVal → Nat → Except PyErr (List PyVal × Nat)
  | [], acc, calls => .ok (acc, calls)
  | (file_path, code) :: rest, acc, calls =>
    let rel := displayOf file_path
    let (analysis, c, _) := analyze_code_with_groq (oracle code rel) rel
    match aggregateStep rel analysis acc with
    | .error e => .error e
    | .ok acc' => aggregateRun oracle displayOf rest acc' (calls + c)

/-- `analyze_repository` (utils.py lines 143-163).  The clone boundary is
supplied as the outcome of `clone_repository` (utils.py lines 21-29): either
the clone path or the text of the `ValueError` it raises on a
`GitCommandError`; `relpath` abstracts `os.path.relpath`, a pure path
operation used only for display names.  The result pairs the final
`\x7b"vulnerabilities": ...\x7d` dict with the total number of boundary
calls issued. -/
def analyze_repository (clone : Except String String) (fs : FileSys)
    (relpath : String → String → String) (oracle : PipelineOracle)
    (specific_file : Option String) : Except PyErr (PyVal × Nat) :=
  match clone with
  | .error e => .error (.valueError e)
  | .ok repo_path =>
    match read_code_files fs repo_path specific_file with
    | .error e => .error (.valueError e)
    | .ok code_files =>
      match aggregateRun oracle (fun fp => relpath fp repo_path) code_files [] 0 with
      | .error e => .error e
      | .ok (all_vulnerabilities, calls) =>
        .ok (.dict [("vulnerabilities", .list all_vulnerabilities)], calls)

/-- `analyze_local_file` (utils.py lines 165-176): acquire the single local
file and run the same aggregation loop, with the path itself as display
name. -/
def analyze_local_file (fs : FileSys) (oracle : PipelineOracle)
    (file_path : String) : Except PyErr (PyVal × Nat) :=
  match read_local_file fs file_path with
  | .error e => .error (.valueError e)
  | .ok code_files =>
    match aggregateRun oracle id code_files [] 0 with
    | .error e => .error e
    | .ok (all_vulnerabilities, calls) =>
      .ok (.dict [("vulnerabilities", .list all_vulnerabilities)], calls)

/-- Key lookup in a decoded dict, used to state the aggregation claims. -/
def dictLookup (kvs : List (String × PyVal)) (k : String) : Option PyVal :=
  (kvs.find? (fun kv => kv.1 == k)).map (fun kv => kv.2)

/-- A one-file repository fixture: the walk finds `a.py` under `/repo`,
10 bytes, content `"code"`. -/
def fsOne : FileSys where
  exists_ := fun p => p == "/repo/a.py"
  size := fun _ => 10
  content := fun p => if p == "/repo/a.py" then some "code" else none
  walk := [("/repo", "a.py")]

/-- A file system with no files at all. -/
def fsEmpty : FileSys where
  exists_ := fun _ => false
  size := fun _ => 0
  content := fun _ => none
  walk := []

/-- A boundary that deterministically answers every call with `text`. -/
def constOracle (text : String) : PipelineOracle := fun _ _ _ => .ok text

example : read_code_files fsOne "/repo" none = .ok [("/repo/a.py", "code")] := by rfl
example : analyze_repository (.ok "/repo") fsOne (fun fp _ => fp)
    (constOracle "\x7b\x7d") none =
    .ok (.dict [("vulnerabilities", .list [])], 1) := by rfl
example : analyze_repository (.ok "/repo") fsOne (fun fp _ => fp)
    (constOracle "\x7b\"vulnerabilities\": 5\x7d") none = .error .typeError := by rfl
example : analyze_local_file fsEmpty (constOracle "\x7b\x7d") "a.py" =
    .error (.valueError "Local file a.py not found") := by rfl

/-- C4: given the raw boundary text `"Here is the result:\n\x7b\"vulnerabilities\": []\x7d\nThanks"`,
the Response Recoverer extracts exactly the substring from the first
brace-open through the last brace-close, namely
`\x7b"vulnerabilities": []\x7d`, and decodes it to a report with an empty
findings list; accordingly the response-processing body returns that empty
report for every file path. -/
theorem c4_recoverer_roundtrip :
    extract_json_from_response
        "Here is the result:\n\x7b\"vulnerabilities\": []\x7d\nThanks" =
      "\x7b\"vulnerabilities\": []\x7d" ∧
    jsonLoads "\x7b\"vulnerabilities\": []\x7d" =
      some (.dict [("vulnerabilities", .list [])]) ∧
    ∀ fp, processResponse fp
        "Here is the result:\n\x7b\"vulnerabilities\": []\x7d\nThanks" =
      .dict [("vulnerabilities", .list [])] :=
  ⟨rfl, rfl, fun _ => rfl⟩

/-- C6: a blank or whitespace-only boundary response short-circuits to the
empty-response error result, for every possible extractor and decoder (so
the Recoverer is provably never consulted), and hence a retry-loop run whose
first call returns blank text yields that error after exactly one call and
no sleeps. -/
theorem c6_blank_response_short_circuit :
    (∀ (extractor : String → String) (loads : String → Option PyVal)
        (fp raw : String), pyStrip raw = "" →
        processResponseWith extractor loads fp raw = emptyResponseErr fp) ∧
    (∀ (oracle : GroqOracle) (fp raw : String), oracle 0 = Except.ok raw →
        pyStrip raw = "" →
        analyze_code_with_groq oracle fp = (emptyResponseErr fp, 1, [])) := by
  constructor
  · intro extractor loads fp raw h
    simp [processResponseWith, h]
  · intro oracle fp raw h hb
    simp [analyze_code_with_groq, max_retries, groqAttemptLoop, h,
      processResponse, processResponseWith, hb]

/-- Closed instance of `c6_blank_response_short_circuit` at a concrete
extractor, decoder, oracle and whitespace-only responses. -/
theorem c6_blank_response_short_circuit_witness :
    processResponseWith (fun _ => "X") (fun _ => some (.int 0)) "a.py" " \n" =
      emptyResponseErr "a.py" ∧
    analyze_code_with_groq (fun _ => Except.ok "  ") "a.py" =
      (emptyResponseErr "a.py", 1, []) :=
  ⟨c6_blank_response_short_circuit.1 (fun _ => "X") (fun _ => some (.int 0))
      "a.py" " \n" rfl,
   c6_blank_response_short_circuit.2 (fun _ => Except.ok "  ") "a.py" "  " rfl rfl⟩

/-- C3: when the boundary raises on every attempt, the retry loop issues
exactly 3 calls with exactly 2 fixed delays of `retry_delay` time units
between them, then returns the error result naming the file and the final
failure reason; it returns rather than propagating any exception. -/
theorem c3_retry_bound (oracle : GroqOracle) (fp m0 m1 m2 : String)
    (h0 : oracle 0 = .error m0) (h1 : oracle 1 = .error m1)
    (h2 : oracle 2 = .error m2) :
    analyze_code_with_groq oracle fp =
      (failedAnalyzeErr fp m2, 3, [retry_delay, retry_delay]) := by
  simp [analyze_code_with_groq, max_retries, groqAttemptLoop, h0, h1, h2]

/-- Closed instance of `c3_retry_bound` at a boundary that always raises
`"boom"`. -/
theorem c3_retry_bound_witness :
    analyze_code_with_groq (fun _ => Except.error "boom") "a.py" =
      (failedAnalyzeErr "a.py" "boom", 3, [5, 5]) :=
  c3_retry_bound (fun _ => Except.error "boom") "a.py" "boom" "boom" "boom"
    rfl rfl rfl

/-- C8: in single-file mode with a nonexistent path, the Acquirer raises the
not-found `ValueError` and the run's outcome is the same for every boundary
oracle — the run aborts before any analysis request is issued. -/
theorem c8_missing_file_aborts_before_boundary (fs : FileSys)
    (oracle : PipelineOracle) (p : String) (h : fs.exists_ p = false) :
    analyze_local_file fs oracle p =
      .error (.valueError ("Local file " ++ p ++ " not found")) := by
  simp [analyze_local_file, read_local_file, h]

/-- Closed instance of `c8_missing_file_aborts_before_boundary` on the empty
file system. -/
theorem c8_missing_file_aborts_before_boundary_witness :
    analyze_local_file fsEmpty (constOracle "\x7b\x7d") "a.py" =
      .error (.valueError "Local file a.py not found") :=
  c8_missing_file_aborts_before_boundary fsEmpty (constOracle "\x7b\x7d")
    "a.py" rfl

/-- The suffix at the first brace-open is empty or starts with that
brace-open. -/
theorem dropToOpen_shape (s : List Char) :
    s.dropWhile (fun c => c != '{') = [] ∨
      ∃ t, s.dropWhile (fun c => c != '{') = '{' :: t := by
  induction s with
  | nil => exact Or.inl rfl
  | cons c r ih =>
    by_cases h : c = '{'
    · subst h; exact Or.inr ⟨r, by simp [List.dropWhile_cons]⟩
    · simpa [List.dropWhile_cons, h] using ih

/-- The extractor's span is empty exactly when no brace-close occurs in the
suffix that begins at the first brace-open. -/
theorem extractSpan_eq_nil_iff (s : List Char) :
    extractSpan s = [] ↔ '}' ∉ s.dropWhile (fun c => c != '{') := by
  simp only [extractSpan, List.reverse_eq_nil_iff, List.dropWhile_eq_nil_iff,
    List.mem_reverse, bne_iff_ne, ne_eq]
  constructor
  · intro h hmem
    exact (h _ hmem) rfl
  · intro h x hx hcontra
    exact h (hcontra ▸ hx)

/-- A brace-close occurring after some brace-open survives into the suffix
that begins at the first brace-open. -/
theorem close_mem_dropToOpen (l₁ r : List Char) (h : '}' ∈ r) :
    '}' ∈ (l₁ ++ '{' :: r).dropWhile (fun c => c != '{') := by
  induction l₁ with
  | nil =>
    simp only [List.nil_append, List.dropWhile_cons]
    simp [h]
  | cons c l ih =>
    by_cases hc : c = '{'
    · subst hc
      simp only [List.cons_append, List.dropWhile_cons]
      simp [h]
    · simpa [List.dropWhile_cons, hc] using ih

/-- C10: the Response Recoverer yields a non-empty candidate span exactly
when the input contains a brace-open that is followed, strictly later, by a
brace-close; in particular the input `"\x7d prose \x7b"`, although it
contains both braces, yields the empty span and hence the no-valid-JSON
error result for every file path. -/
theorem c10_span_nonempty_iff :
    (∀ s : String, extract_json_from_response s ≠ "" ↔
      ∃ l₁ l₂ l₃ : List Char, s.toList = l₁ ++ '{' :: (l₂ ++ '}' :: l₃)) ∧
    extract_json_from_response "\x7d prose \x7b" = "" ∧
    (∀ fp, processResponse fp "\x7d prose \x7b" = noJsonErr fp) := by
  refine ⟨?_, rfl, fun _ => rfl⟩
  intro s
  have hne : extract_json_from_response s ≠ "" ↔ extractSpan s.toList ≠ [] := by
    simp [extract_json_from_response, String.ext_iff]
  rw [hne]
  constructor
  · intro h
    have hmem : '}' ∈ s.toList.dropWhile (fun c => c != '{') := by
      by_contra hmem
      exact h ((extractSpan_eq_nil_iff s.toList).mpr hmem)
    rcases dropToOpen_shape s.toList with h0 | ⟨t, ht⟩
    · rw [h0] at hmem; cases hmem
    · rw [ht] at hmem
      have htm : '}' ∈ t := by
        rcases List.mem_cons.mp hmem with h1 | h1
        · exact absurd h1 (by decide)
        · exact h1
      rcases List.append_of_mem htm with ⟨a, b, hab⟩
      refine ⟨s.toList.takeWhile (fun c => c != '{'), a, b, ?_⟩
      have hsplit := List.takeWhile_append_dropWhile (fun c => c != '{') s.toList
      conv_lhs => rw [← hsplit]
      rw [ht, hab]
  · rintro ⟨l₁, l₂, l₃, h⟩ hnil
    have hmem : '}' ∉ s.toList.dropWhile (fun c => c != '{') :=
      (extractSpan_eq_nil_iff _).mp hnil
    refine hmem ?_
    rw [h]
    exact close_mem_dropToOpen l₁ _ (by simp)

/-- When the text has no brace-open at all, the extracted span is empty. -/
theorem extract_eq_empty_of_no_open (s : String) (h : '{' ∉ s.toList) :
    extract_json_from_response s = "" := by
  have hnil : s.toList.dropWhile (fun c => c != '{') = [] :=
    List.dropWhile_eq_nil_iff.mpr (fun x hx => by
      simp only [bne_iff_ne, ne_eq]
      intro hx'
      exact h (hx' ▸ hx))
  have hnil' : s.data.dropWhile (fun c => c != '{') = [] := hnil
  simp [extract_json_from_response, extractSpan, hnil', String.ext_iff]

/-- C5: for every non-blank raw text containing no brace-open and no
brace-close, recovery deterministically yields the no-valid-JSON outcome:
the extractor returns the empty string and the response-processing body
returns the error result naming the file. -/
theorem c5_no_braces_yields_nojson (s fp : String) (hblank : pyStrip s ≠ "")
    (hopen : '{' ∉ s.toList) (_hclose : '}' ∉ s.toList) :
    extract_json_from_response s = "" ∧ processResponse fp s = noJsonErr fp := by
  have he := extract_eq_empty_of_no_open s hopen
  refine ⟨he, ?_⟩
  simp [processResponse, processResponseWith, he, hblank]

/-- Closed instance of `c5_no_braces_yields_nojson` on the text `"hello"`. -/
theorem c5_no_braces_yields_nojson_witness :
    pyStrip "hello" ≠ "" ∧ '{' ∉ "hello".toList ∧ '}' ∉ "hello".toList ∧
    (extract_json_from_response "hello" = "" ∧
      processResponse "a.py" "hello" = noJsonErr "a.py") :=
  ⟨by decide, by decide, by decide,
   c5_no_braces_yields_nojson "hello" "a.py" (by decide) (by decide) (by decide)⟩

/-- C7: in single-file mode, for every requested path the Acquirer fails
with the not-found `ValueError` when the path is absent, the wrong-type
error when the extension is not `.py`/`.ts`, the too-large error when the
size exceeds 1,000,000 bytes, the decode error when the bytes are not valid
UTF-8, the empty error when the trimmed content is blank, and on success
returns the single-entry mapping from the path to its content — both for a
local file (`read_local_file`) and for a specific file resolved under an
acquired repository root (`read_code_files`). -/
theorem c7_single_file_checks (fs : FileSys) :
    (∀ p : String,
      (fs.exists_ p = false →
        read_local_file fs p = .error ("Local file " ++ p ++ " not found")) ∧
      (fs.exists_ p = true → endsPyTs p = false →
        read_local_file fs p =
          .error ("File " ++ p ++ " must be a .py or .ts file")) ∧
      (fs.exists_ p = true → endsPyTs p = true → max_file_size < fs.size p →
        read_local_file fs p =
          .error ("File " ++ p ++ " exceeds size limit of 1000000 bytes")) ∧
      (fs.exists_ p = true → endsPyTs p = true → fs.size p ≤ max_file_size →
        fs.content p = none →
        read_local_file fs p = .error ("Unable to decode " ++ p ++ " as UTF-8")) ∧
      (∀ c, fs.exists_ p = true → endsPyTs p = true →
        fs.size p ≤ max_file_size → fs.content p = some c → pyStrip c = "" →
        read_local_file fs p = .error ("File " ++ p ++ " is empty")) ∧
      (∀ c, fs.exists_ p = true → endsPyTs p = true →
        fs.size p ≤ max_file_size → fs.content p = some c → pyStrip c ≠ "" →
        read_local_file fs p = .ok [(p, c)])) ∧
    (∀ root sf : String,
      (fs.exists_ (pathJoin root sf) = false →
        read_code_files fs root (some sf) =
          .error ("File " ++ sf ++ " not found in repository")) ∧
      (fs.exists_ (pathJoin root sf) = true → endsPyTs (pathJoin root sf) = false →
        read_code_files fs root (some sf) =
          .error ("File " ++ sf ++ " must be a .py or .ts file")) ∧
      (fs.exists_ (pathJoin root sf) = true → endsPyTs (pathJoin root sf) = true →
        max_file_size < fs.size (pathJoin root sf) →
        read_code_files fs root (some sf) =
          .error ("File " ++ pathJoin root sf ++ " exceeds size limit of 1000000 bytes")) ∧
      (fs.exists_ (pathJoin root sf) = true → endsPyTs (pathJoin root sf) = true →
        fs.size (pathJoin root sf) ≤ max_file_size →
        fs.content (pathJoin root sf) = none →
        read_code_files fs root (some sf) =
          .error ("Unable to decode " ++ pathJoin root sf ++ " as UTF-8")) ∧
      (∀ c, fs.exists_ (pathJoin root sf) = true → endsPyTs (pathJoin root sf) = true →
        fs.size (pathJoin root sf) ≤ max_file_size →
        fs.content (pathJoin root sf) = some c → pyStrip c = "" →
        read_code_files fs root (some sf) =
          .error ("File " ++ pathJoin root sf ++ " is empty")) ∧
      (∀ c, fs.exists_ (pathJoin root sf) = true → endsPyTs (pathJoin root sf) = true →
        fs.size (pathJoin root sf) ≤ max_file_size →
        fs.content (pathJoin root sf) = some c → pyStrip c ≠ "" →
        read_code_files fs root (some sf) = .ok [(pathJoin root sf, c)])) := by
  constructor
  · intro p
    refine ⟨?_, ?_, ?_, ?_, ?_, ?_⟩
    · intro h1; simp [read_local_file, h1]
    · intro h1 h2; simp [read_local_file, h1, h2]
    · intro h1 h2 h3; simp [read_local_file, h1, h2, h3]
    · intro h1 h2 h3 h4
      have h3' := Nat.not_lt.mpr h3
      simp [read_local_file, h1, h2, h3', h4]
    · intro c h1 h2 h3 h4 h5
      have h3' := Nat.not_lt.mpr h3
      simp [read_local_file, h1, h2, h3', h4, h5]
    · intro c h1 h2 h3 h4 h5
      have h3' := Nat.not_lt.mpr h3
      simp [read_local_file, h1, h2, h3', h4, h5]
  · intro root sf
    refine ⟨?_, ?_, ?_, ?_, ?_, ?_⟩
    · intro h1; simp [read_code_files, h1]
    · intro h1 h2; simp [read_code_files, h1, h2]
    · intro h1 h2 h3; simp [read_code_files, h1, h2, h3]
    · intro h1 h2 h3 h4
      have h3' := Nat.not_lt.mpr h3
      simp [read_code_files, h1, h2, h3', h4]
    · intro c h1 h2 h3 h4 h5
      have h3' := Nat.not_lt.mpr h3
      simp [read_code_files, h1, h2, h3', h4, h5]
    · intro c h1 h2 h3 h4 h5
      have h3' := Nat.not_lt.mpr h3
      simp [read_code_files, h1, h2, h3', h4, h5]

/-- Closed instances of `c7_single_file_checks`: success on an existing
eligible file, and the not-found errors in both single-file modes. -/
theorem c7_single_file_checks_witness :
    read_local_file fsOne "/repo/a.py" = .ok [("/repo/a.py", "code")] ∧
    read_local_file fsOne "b.py" = .error "Local file b.py not found" ∧
    read_code_files fsOne "/repo" (some "b.md") =
      .error "File b.md not found in repository" :=
  ⟨((c7_single_file_checks fsOne).1 "/repo/a.py").2.2.2.2.2 "code"
      (by decide) (by decide) (by decide) (by decide) (by decide),
   ((c7_single_file_checks fsOne).1 "b.py").1 (by decide),
   ((c7_single_file_checks fsOne).2 "/repo" "b.md").1 (by decide)⟩

/-- Eligibility of one walk entry `(directory, file-name)` under the
whole-repository filter: allowed extension on the name, size at most
`max_file_size`, UTF-8 decodable, trimmed content non-blank. -/
def eligibleWalkEntry (fs : FileSys) (rn : String × String) : Bool :=
  endsPyTs rn.2 && decide (fs.size (pathJoin rn.1 rn.2) ≤ max_file_size) &&
    (match fs.content (pathJoin rn.1 rn.2) with
     | some c => !(pyStrip c == "")
     | none => false)

/-- The walk fold accumulates exactly the eligible entries, in walk
order. -/
theorem walk_foldl_spec (fs : FileSys) (l : List (String × String)) :
    ∀ acc : List (String × String),
      l.foldl (fun acc rn =>
        if endsPyTs rn.2 then
          let file_path := pathJoin rn.1 rn.2
          if fs.size file_path > max_file_size then acc
          else
            match fs.content file_path with
            | none => acc
            | some content =>
              if pyStrip content == "" then acc else acc ++ [(file_path, content)]
        else acc) acc =
      acc ++ (l.filter (eligibleWalkEntry fs)).filterMap
        (fun rn => (fs.content (pathJoin rn.1 rn.2)).map
          (fun c => (pathJoin rn.1 rn.2, c))) := by
  induction l with
  | nil => intro acc; simp
  | cons rn rest ih =>
    intro acc
    simp only [List.foldl_cons]
    rw [ih]
    by_cases h1 : endsPyTs rn.2
    · by_cases h2 : fs.size (pathJoin rn.1 rn.2) > max_file_size
      · have h2' := Nat.not_le.mpr h2
        simp [h1, h2, h2', eligibleWalkEntry, List.filter_cons]
      · have h2' := Nat.not_lt.mpr (Nat.not_lt.mp h2)
        cases hc : fs.content (pathJoin rn.1 rn.2) with
        | none => simp [h1, h2, hc, eligibleWalkEntry, List.filter_cons, Nat.not_lt.mp h2]
        | some c =>
          by_cases h3 : pyStrip c == ""
          · simp [h1, h2, hc, h3, eligibleWalkEntry, List.filter_cons, Nat.not_lt.mp h2]
          · simp [h1, h2, hc, h3, eligibleWalkEntry, List.filter_cons,
              List.filterMap_cons, Nat.not_lt.mp h2]
    · simp [h1, eligibleWalkEntry, List.filter_cons]

/-- C9: in whole-repository walk mode the returned mapping consists exactly
of the walk entries whose name ends in `.py`/`.ts`, whose size does not
exceed 1,000,000 bytes, whose content decodes as UTF-8 and is non-blank
after trimming — each mapped to its decoded content, in walk order — and
the walk always returns such a mapping (it never raises), every ineligible
entry being skipped. -/
theorem c9_walk_filter (fs : FileSys) (root : String) :
    read_code_files fs root none =
      .ok ((fs.walk.filter (eligibleWalkEntry fs)).filterMap
        (fun rn => (fs.content (pathJoin rn.1 rn.2)).map
          (fun c => (pathJoin rn.1 rn.2, c)))) := by
  simp only [read_code_files]
  rw [walk_foldl_spec fs fs.walk []]
  simp

/-- A dict's key-membership test agrees with `find?` success. -/
theorem anyKey_eq_find_isSome (kvs : List (String × PyVal)) (k : String) :
    kvs.any (fun kv => kv.1 == k) = (kvs.find? (fun kv => kv.1 == k)).isSome := by
  induction kvs with
  | nil => rfl
  | cons kv rest ih =>
    cases h : (kv.1 == k) with
    | true => simp [List.find?_cons, h]
    | false => simp [List.find?_cons, h, ih]

/-- The findings contributed by one per-file result dict: the elements of
its `vulnerabilities` entry when that key is present and maps to a list. -/
def vulnContribution (kvs : List (String × PyVal)) : List PyVal :=
  match dictLookup kvs "vulnerabilities" with
  | some (.list vs) => vs
  | _ => []

/-- The error record contributed by one per-file result dict: one
`\x7bfile, error\x7d` record when the `error` key is present. -/
def errContribution (display : String) (kvs : List (String × PyVal)) :
    List PyVal :=
  match dictLookup kvs "error" with
  | some e => [.dict [("file", .str display), ("error", e)]]
  | none => []

/-- C1 (amended): for every file accepted by the filter, the aggregation
loop contributes exactly the elements of the per-file result's
`vulnerabilities` list when that key is present, plus exactly one
`\x7bfile, error\x7d` record when its `error` key is present — so a result
carrying both keys (as every requester-built error result does, with an
empty findings list) contributes both parts, and a decoded object carrying
neither key contributes nothing at all: a silent drop is possible. -/
theorem c1_per_file_contribution (display : String)
    (kvs : List (String × PyVal)) (acc : List PyVal)
    (h : dictLookup kvs "vulnerabilities" = none ∨
         ∃ vs, dictLookup kvs "vulnerabilities" = some (.list vs)) :
    aggregateStep display (.dict kvs) acc =
      .ok (acc ++ vulnContribution kvs ++ errContribution display kvs) := by
  rcases h with hnone | ⟨vs, hvs⟩
  · have hfind : kvs.find? (fun kv => kv.1 == "vulnerabilities") = none :=
      Option.map_eq_none'.mp hnone
    have hany : kvs.any (fun kv => kv.1 == "vulnerabilities") = false := by
      rw [anyKey_eq_find_isSome, hfind]; rfl
    cases hfe : kvs.find? (fun kv => kv.1 == "error") with
    | none =>
      have hanye : kvs.any (fun kv => kv.1 == "error") = false := by
        rw [anyKey_eq_find_isSome, hfe]; rfl
      simp [aggregateStep, vulnProbe, errProbe, pyContains, hany, hanye, vulnContribution,
        errContribution, dictLookup, hnone, hfind, hfe]
    | some kv =>
      have hanye : kvs.any (fun kv => kv.1 == "error") = true := by
        rw [anyKey_eq_find_isSome, hfe]; rfl
      simp [aggregateStep, vulnProbe, errProbe, pyContains, pyIndex, hany, hanye, hfe,
        vulnContribution, errContribution, dictLookup, hnone, hfind]
  · obtain ⟨kv0, hfind, hkv0⟩ := Option.map_eq_some'.mp hvs
    have hany : kvs.any (fun kv => kv.1 == "vulnerabilities") = true := by
      rw [anyKey_eq_find_isSome, hfind]; rfl
    cases hfe : kvs.find? (fun kv => kv.1 == "error") with
    | none =>
      have hanye : kvs.any (fun kv => kv.1 == "error") = false := by
        rw [anyKey_eq_find_isSome, hfe]; rfl
      simp [aggregateStep, vulnProbe, errProbe, pyContains, pyIndex, pyIter, hany, hanye, hfind,
        hkv0, vulnContribution, errContribution, dictLookup, hvs, hfe]
    | some kv =>
      have hanye : kvs.any (fun kv => kv.1 == "error") = true := by
        rw [anyKey_eq_find_isSome, hfe]; rfl
      simp [aggregateStep, vulnProbe, errProbe, pyContains, pyIndex, pyIter, hany, hanye, hfind,
        hkv0, vulnContribution, errContribution, dictLookup, hvs, hfe]

/-- C1 fails as stated: with one file accepted by the filter and a boundary
answer decoding to the object `\x7b\x7d` (neither a `vulnerabilities` nor an
`error` key), the per-file result contributes zero entries and the final
aggregate is empty — the accepted file was silently dropped. -/
theorem c1_counterexample_silent_drop :
    read_code_files fsOne "/repo" none = .ok [("/repo/a.py", "code")] ∧
    analyze_code_with_groq (constOracle "\x7b\x7d" "code" "/repo/a.py")
      "/repo/a.py" = (.dict [], 1, []) ∧
    analyze_repository (.ok "/repo") fsOne (fun fp _ => fp)
      (constOracle "\x7b\x7d") none =
      .ok (.dict [("vulnerabilities", .list [])], 1) :=
  ⟨rfl, rfl, rfl⟩

/-- Closed instance of `c1_per_file_contribution` on a requester-built error
result (both keys present, empty findings list): exactly one error record is
contributed. -/
theorem c1_per_file_contribution_witness :
    aggregateStep "f.py"
      (.dict [("vulnerabilities", PyVal.list []), ("error", PyVal.str "m")]) [] =
      .ok [PyVal.dict [("file", PyVal.str "f.py"), ("error", PyVal.str "m")]] :=
  c1_per_file_contribution "f.py"
    [("vulnerabilities", PyVal.list []), ("error", PyVal.str "m")] []
    (Or.inr ⟨[], rfl⟩)

/-- A per-file result on which the aggregation probes cannot raise: a dict
whose `vulnerabilities` entry, when present, is iterable. -/
def aggSafe : PyVal → Bool
  | .dict kvs =>
    match dictLookup kvs "vulnerabilities" with
    | none => true
    | some w => (pyIter w).isOk
  | _ => false

/-- The aggregation step succeeds on every safe per-file result. -/
theorem aggregateStep_ok_of_safe (display : String) (analysis : PyVal)
    (acc : List PyVal) (h : aggSafe analysis = true) :
    ∃ acc', aggregateStep display analysis acc = .ok acc' := by
  cases analysis with
  | dict kvs =>
    have hstep1 : ∃ acc1, vulnProbe (.dict kvs) acc = .ok acc1 := by
      cases hfv : kvs.find? (fun kv => kv.1 == "vulnerabilities") with
      | none =>
        have hany : kvs.any (fun kv => kv.1 == "vulnerabilities") = false := by
          rw [anyKey_eq_find_isSome, hfv]; rfl
        exact ⟨acc, by simp [vulnProbe, pyContains, hany]⟩
      | some kv =>
        have hany : kvs.any (fun kv => kv.1 == "vulnerabilities") = true := by
          rw [anyKey_eq_find_isSome, hfv]; rfl
        have hsafe : (pyIter kv.2).isOk = true := by
          simpa [aggSafe, dictLookup, hfv] using h
        cases hit : pyIter kv.2 with
        | error e => rw [hit] at hsafe; cases hsafe
        | ok items =>
          exact ⟨acc ++ items, by simp [vulnProbe, pyContains, pyIndex, hany, hfv, hit]⟩
    obtain ⟨acc1, h1⟩ := hstep1
    cases hfe : kvs.find? (fun kv => kv.1 == "error") with
    | none =>
      have hanye : kvs.any (fun kv => kv.1 == "error") = false := by
        rw [anyKey_eq_find_isSome, hfe]; rfl
      exact ⟨acc1, by simp [aggregateStep, h1, errProbe, pyContains, hanye]⟩
    | some kv =>
      have hanye : kvs.any (fun kv => kv.1 == "error") = true := by
        rw [anyKey_eq_find_isSome, hfe]; rfl
      exact ⟨acc1 ++ [PyVal.dict [("file", .str display), ("error", kv.2)]],
        by simp [aggregateStep, h1, errProbe, pyContains, pyIndex, hanye, hfe]⟩
  | pyNone => simp [aggSafe] at h
  | bool b => simp [aggSafe] at h
  | int n => simp [aggSafe] at h
  | numLit s => simp [aggSafe] at h
  | str s => simp [aggSafe] at h
  | list xs => simp [aggSafe] at h

/-- The aggregation loop succeeds whenever every per-file result it will
fold is safe. -/
theorem aggregateRun_ok_of_safe (oracle : PipelineOracle)
    (displayOf : String → String) :
    ∀ (files : List (String × String)) (acc : List PyVal) (calls : Nat),
      (∀ fc ∈ files,
        aggSafe (analyze_code_with_groq (oracle fc.2 (displayOf fc.1))
          (displayOf fc.1)).1 = true) →
      ∃ acc' calls',
        aggregateRun oracle displayOf files acc calls = .ok (acc', calls') := by
  intro files
  induction files with
  | nil => exact fun acc calls _ => ⟨acc, calls, rfl⟩
  | cons fc rest ih =>
    intro acc calls h
    obtain ⟨fp, code⟩ := fc
    have hsafe := h (fp, code) (List.mem_cons_self _ _)
    rcases he : analyze_code_with_groq (oracle code (displayOf fp)) (displayOf fp)
      with ⟨analysis, c, d⟩
    rw [he] at hsafe
    obtain ⟨acc1, hstep⟩ :=
      aggregateStep_ok_of_safe (displayOf fp) analysis acc hsafe
    obtain ⟨acc', calls', hrest⟩ := ih acc1 (calls + c)
      (fun fc hfc => h fc (List.mem_cons_of_mem _ hfc))
    exact ⟨acc', calls', by simp only [aggregateRun, he, hstep, hrest]⟩

/-- C2 (amended): `analyze_repository` raises the Acquirer-stage
`ValueError`s — for a failed clone and for a failed file acquisition — and
returns the combined aggregate without raising whenever every per-file
result is a dict whose `vulnerabilities` entry, when present, is iterable
(in particular whenever all per-file analyses fail, since every
requester-built error result has that shape); but a decoded per-file object
whose `vulnerabilities` entry is not iterable makes the aggregation itself
raise a `TypeError`, so the run can raise for a per-file analysis outcome
(see `c2_counterexample_per_file_raise`). -/
theorem c2_aggregator_error_handling :
    (∀ (e : String) (fs : FileSys) (relpath : String → String → String)
        (oracle : PipelineOracle) (sf : Option String),
      analyze_repository (.error e) fs relpath oracle sf =
        .error (.valueError e)) ∧
    (∀ (repo : String) (fs : FileSys) (relpath : String → String → String)
        (oracle : PipelineOracle) (sf : Option String) (msg : String),
      read_code_files fs repo sf = .error msg →
      analyze_repository (.ok repo) fs relpath oracle sf =
        .error (.valueError msg)) ∧
    (∀ (repo : String) (fs : FileSys) (relpath : String → String → String)
        (oracle : PipelineOracle) (sf : Option String)
        (files : List (String × String)),
      read_code_files fs repo sf = .ok files →
      (∀ fc ∈ files,
        aggSafe (analyze_code_with_groq (oracle fc.2 (relpath fc.1 repo))
          (relpath fc.1 repo)).1 = true) →
      ∃ findings calls,
        analyze_repository (.ok repo) fs relpath oracle sf =
          .ok (.dict [("vulnerabilities", .list findings)], calls)) := by
  refine ⟨fun e fs relpath oracle sf => rfl, ?_, ?_⟩
  · intro repo fs relpath oracle sf msg h
    simp [analyze_repository, h]
  · intro repo fs relpath oracle sf files h hsafe
    obtain ⟨acc', calls', hrun⟩ :=
      aggregateRun_ok_of_safe oracle (fun fp => relpath fp repo) files [] 0 hsafe
    exact ⟨acc', calls', by simp [analyze_repository, h, hrun]⟩

/-- C2 fails as stated: with a successful clone and a successfully acquired
file, a boundary answer decoding to `\x7b"vulnerabilities": 5\x7d` makes
`analyze_repository` raise a `TypeError` from the per-file aggregation —
a per-file analysis outcome, not an Acquirer-stage failure. -/
theorem c2_counterexample_per_file_raise :
    read_code_files fsOne "/repo" none = .ok [("/repo/a.py", "code")] ∧
    analyze_repository (.ok "/repo") fsOne (fun fp _ => fp)
      (constOracle "\x7b\"vulnerabilities\": 5\x7d") none =
      .error .typeError :=
  ⟨rfl, rfl⟩

/-- Closed instances of `c2_aggregator_error_handling`: the clone-failure
`ValueError`, and a no-raise aggregate for a one-file repository whose
analysis returns an empty findings object. -/
theorem c2_aggregator_error_handling_witness :
    analyze_repository (.error "Failed to clone repository r: boom") fsOne
      (fun fp _ => fp) (constOracle "\x7b\x7d") none =
      .error (.valueError "Failed to clone repository r: boom") ∧
    ∃ findings calls,
      analyze_repository (.ok "/repo") fsOne (fun fp _ => fp)
        (constOracle "\x7b\"vulnerabilities\": []\x7d") none =
        .ok (.dict [("vulnerabilities", .list findings)], calls) :=
  ⟨c2_aggregator_error_handling.1 "Failed to clone repository r: boom" fsOne
      (fun fp _ => fp) (constOracle "\x7b\x7d") none,
   c2_aggregator_error_handling.2.2 "/repo" fsOne (fun fp _ => fp)
      (constOracle "\x7b\"vulnerabilities\": []\x7d") none
      [("/repo/a.py", "code")] rfl (by decide)⟩
